import Mathlib

/-!
Verification of the ICU vitals-to-risk pipeline
(`utils/simulator.py`, `utils/predictor.py`).

The pipeline is embedded shallowly over ℚ.  Randomness is made explicit:
`numpy`'s `Generator.normal(loc, scale)` is `loc + scale * z` for a
standard-normal draw `z`, so each snapshot takes a record of the five
standard-normal draws it consumes; `Generator.uniform(lo, hi)` is
`lo + (hi - lo) * u` for a unit draw `u ∈ [0,1)`, so the seeded dataset
builder takes the seeded unit-uniform stream as a function of the seed and
the draw index.  A `World` bundles the ambient entropy, the wall clock and
the seeded-PRNG family, so that dependence (or independence) of each
operation on ambient process state is visible in its type.
-/

namespace ICU

/-- np.clip(x, lo, hi) = min(max(x, lo), hi). -/
def clip (x lo hi : ℚ) : ℚ := min (max x lo) hi

/-- Output dictionary of `generate_vital_snapshot` in `utils/simulator.py`. -/
structure VitalSnapshot where
  patient_id : ℤ
  timestamp : ℚ
  heart_rate : ℚ
  oxygen_level : ℚ
  temperature : ℚ
  blood_pressure : ℚ
  respiratory_rate : ℚ
  deriving DecidableEq

/-- The five standard-normal draws one call of `generate_vital_snapshot`
consumes from its `np.random.default_rng()` source, in program order. -/
structure NormalDraws where
  z_hr : ℚ
  z_o2 : ℚ
  z_temp : ℚ
  z_bp : ℚ
  z_rr : ℚ
  deriving DecidableEq

/-- `generate_vital_snapshot(patient_id, risk_level)` from `utils/simulator.py`:
branch on `risk_level` ("normal" / "warning" / anything else = critical tier),
draw each vital as mean + sd * z, clip each to its hard physiological bound.
`now` stands for `datetime.now()` and `d` for the rng's normal draws. -/
def generate_vital_snapshot (patient_id : ℤ) (risk_level : String) (now : ℚ)
    (d : NormalDraws) : VitalSnapshot :=
  let raw : ℚ × ℚ × ℚ × ℚ × ℚ :=
    if risk_level = "normal" then
      (75 + 5 * d.z_hr, 97 + 1 * d.z_o2, 36.8 + 0.3 * d.z_temp,
        120 + 8 * d.z_bp, 16 + 2 * d.z_rr)
    else if risk_level = "warning" then
      (100 + 10 * d.z_hr, 93 + 2 * d.z_o2, 37.8 + 0.4 * d.z_temp,
        145 + 10 * d.z_bp, 22 + 3 * d.z_rr)
    else
      (130 + 15 * d.z_hr, 88 + 3 * d.z_o2, 39.0 + 0.6 * d.z_temp,
        170 + 15 * d.z_bp, 30 + 4 * d.z_rr)
  { patient_id := patient_id
    timestamp := now
    heart_rate := clip raw.1 40 200
    oxygen_level := clip raw.2.1 70 100
    temperature := clip raw.2.2.1 34.0 42.0
    blood_pressure := clip raw.2.2.2.1 60 200
    respiratory_rate := clip raw.2.2.2.2 8 45 }

/-- `generate_time_series(n_points, interval_seconds, risk_level)` from
`utils/simulator.py`: n snapshots, the i-th with its timestamp overwritten to
`now - (n_points - i) * interval_seconds`.  `draws i` is the i-th snapshot's
batch of normal draws. -/
def generate_time_series (n_points : ℕ) (interval_seconds : ℤ) (risk_level : String)
    (now : ℚ) (draws : ℕ → NormalDraws) : List VitalSnapshot :=
  (List.range n_points).map fun i =>
    { generate_vital_snapshot 1 risk_level now (draws i) with
        timestamp := now - ((((n_points : ℤ) - (i : ℤ)) * interval_seconds : ℤ) : ℚ) }

/-- One row of the DataFrame built by `generate_patient_dataset`. -/
structure PatientRecord where
  heart_rate : ℚ
  oxygen_level : ℚ
  temperature : ℚ
  blood_pressure : ℚ
  respiratory_rate : ℚ
  risk_score : ℚ
  deriving DecidableEq

/-- The unclamped weighted deviation sum of `generate_patient_dataset`
(`hr_score`, `o2_score`, `temp_score`, `bp_score`, `rr_score` and the
weighted sum, `utils/simulator.py` lines 101-110). -/
def rawRiskScore (hr o2 t bp rr : ℚ) : ℚ :=
  let hr_score := |hr - 75| / 85.0
  let o2_score := (100.0 - o2) / 20.0
  let temp_score := |t - 36.8| / 5.2
  let bp_score := |bp - 120| / 100.0
  let rr_score := |rr - 16| / 24.0
  0.25 * hr_score + 0.30 * o2_score + 0.15 * temp_score
    + 0.15 * bp_score + 0.15 * rr_score

/-- The risk-score label: the weighted sum clipped to [0, 1]
(`np.clip(..., 0.0, 1.0)` in `generate_patient_dataset`). -/
def riskScore (hr o2 t bp rr : ℚ) : ℚ := clip (rawRiskScore hr o2 t bp rr) 0.0 1.0

/-- Ambient process state: the entropy stream feeding unseeded
`np.random.default_rng()` calls, the wall clock, and the (algorithm-fixed)
seeded PRNG family `seed ↦ index ↦ unit uniform draw` realising
`np.random.default_rng(seed).uniform`. -/
structure World where
  entropy : ℕ → NormalDraws
  clock : ℚ
  seededUniform : ℕ → ℕ → ℚ

/-- `generate_patient_dataset(n_patients, seed)` from `utils/simulator.py`:
five uniform batches drawn in program order from `default_rng(seed)`
(`uniform(lo, hi)` = `lo + (hi - lo) * u`), then the risk-score label per row.
Only `w.seededUniform` is consulted, never the ambient entropy or clock. -/
def generate_patient_dataset (w : World) (n_patients seed : ℕ) : List PatientRecord :=
  (List.range n_patients).map fun i =>
    let heart_rate := 50 + (160 - 50) * w.seededUniform seed i
    let oxygen_level := 80 + (100 - 80) * w.seededUniform seed (n_patients + i)
    let temperature := 35.0 + (42.0 - 35.0) * w.seededUniform seed (2 * n_patients + i)
    let blood_pressure := 80 + (180 - 80) * w.seededUniform seed (3 * n_patients + i)
    let respiratory_rate := 10 + (40 - 10) * w.seededUniform seed (4 * n_patients + i)
    { heart_rate := heart_rate
      oxygen_level := oxygen_level
      temperature := temperature
      blood_pressure := blood_pressure
      respiratory_rate := respiratory_rate
      risk_score := riskScore heart_rate oxygen_level temperature
        blood_pressure respiratory_rate }

/-- Column order of the DataFrame constructed at the end of
`generate_patient_dataset` (insertion order of the dict literal). -/
def dataset_columns : List String :=
  ["heart_rate", "oxygen_level", "temperature", "blood_pressure",
    "respiratory_rate", "risk_score"]

/-- `classify_risk(risk_score)` from `utils/simulator.py`. -/
def classify_risk (risk_score : ℚ) : String :=
  if risk_score < 0.35 then "SAFE"
  else if risk_score < 0.65 then "WARNING"
  else "CRITICAL"

/-- `FEATURE_COLUMNS` from `utils/simulator.py`. -/
def FEATURE_COLUMNS : List String :=
  ["heart_rate", "oxygen_level", "temperature", "blood_pressure",
    "respiratory_rate"]

/-- Return value of `predict_risk` in `utils/predictor.py`. -/
structure RiskAssessment where
  risk_score : ℚ
  status : String
  deriving DecidableEq

/-- `predict_risk(...)` from `utils/predictor.py`: feed the five vitals to the
loaded regression model (here an arbitrary function `model`, since the pickled
artifact is an opaque black box), clip the raw output to [0, 1], classify. -/
def predict_risk (model : ℚ → ℚ → ℚ → ℚ → ℚ → ℚ)
    (heart_rate oxygen_level temperature blood_pressure respiratory_rate : ℚ) :
    RiskAssessment :=
  let risk_score :=
    clip (model heart_rate oxygen_level temperature blood_pressure respiratory_rate)
      0.0 1.0
  { risk_score := risk_score, status := classify_risk risk_score }

/-- Rank of a status string in the ordinal order SAFE < WARNING < CRITICAL. -/
def statusRank (status : String) : ℕ :=
  if status = "SAFE" then 0 else if status = "WARNING" then 1 else 2

/-- A zero batch of normal draws, used as a concrete random outcome. -/
def dZero : NormalDraws := ⟨0, 0, 0, 0, 0⟩

/-- Helper: clip really lands in [lo, hi]. -/
theorem clip_bounds (x lo hi : ℚ) (h : lo ≤ hi) :
    lo ≤ clip x lo hi ∧ clip x lo hi ≤ hi := by
  unfold clip
  constructor
  · exact le_min (le_max_right x lo) h
  · exact min_le_right _ _

/-- Claim C1: classify_risk is total and deterministic with
boundary-inclusive lower edges: SAFE below 0.35, WARNING on [0.35, 0.65),
CRITICAL from 0.65 up; in particular classify_risk 0.34 = SAFE,
classify_risk 0.35 = WARNING, classify_risk 0.649999 = WARNING,
classify_risk 0.65 = CRITICAL. -/
theorem C1_classify_bands :
    (∀ s : ℚ,
      (s < 0.35 → classify_risk s = "SAFE") ∧
      (0.35 ≤ s → s < 0.65 → classify_risk s = "WARNING") ∧
      (0.65 ≤ s → classify_risk s = "CRITICAL")) ∧
    classify_risk 0.34 = "SAFE" ∧
    classify_risk 0.35 = "WARNING" ∧
    classify_risk 0.649999 = "WARNING" ∧
    classify_risk 0.65 = "CRITICAL" := by
  refine ⟨fun s => ⟨?_, ?_, ?_⟩, by norm_num [classify_risk],
    by norm_num [classify_risk], by norm_num [classify_risk],
    by norm_num [classify_risk]⟩
  · intro h
    unfold classify_risk
    rw [if_pos h]
  · intro h1 h2
    unfold classify_risk
    rw [if_neg (not_lt.mpr h1), if_pos h2]
  · intro h
    unfold classify_risk
    rw [if_neg (not_lt.mpr (by linarith)), if_neg (not_lt.mpr h)]

/-- Witness for C1 at the concrete score 1/2. -/
theorem C1_witness : classify_risk (1/2) = "WARNING" :=
  (C1_classify_bands.1 (1/2)).2.1 (by norm_num) (by norm_num)

/-- Helper: the exact value of the risk score at the clinically ideal
center, where only the one-sided oxygen term contributes. -/
theorem riskScore_ideal_value : riskScore 75 97 36.8 120 16 = 0.045 := by
  have hraw : rawRiskScore 75 97 36.8 120 16 = 0.045 := by
    unfold rawRiskScore
    norm_num
  unfold riskScore clip
  rw [hraw, max_eq_left (by norm_num), min_eq_left (by norm_num)]

/-- Counterexample to claim C2: at the clinically ideal center the risk score
is not exactly 0, because the one-sided oxygen term (100 − 97)/20 = 0.15 is
nonzero there. -/
theorem C2_counterexample : riskScore 75 97 36.8 120 16 ≠ 0 := by
  rw [riskScore_ideal_value]
  norm_num

/-- Claim C2 (amended): the risk score at the ideal center (75, 97, 36.8,
120, 16) equals exactly 0.045 = 9/200 — near zero but nonzero, the whole
contribution coming from the one-sided oxygen term 0.30 · (100 − 97)/20. -/
theorem C2_ideal_center : riskScore 75 97 36.8 120 16 = 0.045 :=
  riskScore_ideal_value

/-- Claim C7: the risk score saturates at 1 on the extreme input
(200, 70, 42, 200, 45), whose unclamped weighted sum exceeds 1. -/
theorem C7_saturation :
    riskScore 200 70 42 200 45 = 1 ∧ 1 < rawRiskScore 200 70 42 200 45 := by
  have hraw : 1 < rawRiskScore 200 70 42 200 45 := by
    unfold rawRiskScore
    rw [abs_of_nonneg (show (0:ℚ) ≤ 200 - 75 by norm_num),
      abs_of_nonneg (show (0:ℚ) ≤ 42 - 36.8 by norm_num),
      abs_of_nonneg (show (0:ℚ) ≤ 200 - 120 by norm_num),
      abs_of_nonneg (show (0:ℚ) ≤ 45 - 16 by norm_num)]
    norm_num
  refine ⟨?_, hraw⟩
  unfold riskScore clip
  rw [min_eq_right (le_max_of_le_left (by linarith))]
  norm_num

/-- Claim C3: generate_vital_snapshot never fails and its output lies within
the hard physiological bounds, for every risk_level string (hence for
normal/warning/critical in particular) and every outcome of the normal
draws: heart_rate ∈ [40, 200], oxygen_level ∈ [70, 100],
temperature ∈ [34, 42], blood_pressure ∈ [60, 200],
respiratory_rate ∈ [8, 45]. -/
theorem C3_snapshot_bounds (patient_id : ℤ) (risk_level : String) (now : ℚ)
    (d : NormalDraws) :
    (40 ≤ (generate_vital_snapshot patient_id risk_level now d).heart_rate ∧
      (generate_vital_snapshot patient_id risk_level now d).heart_rate ≤ 200) ∧
    (70 ≤ (generate_vital_snapshot patient_id risk_level now d).oxygen_level ∧
      (generate_vital_snapshot patient_id risk_level now d).oxygen_level ≤ 100) ∧
    (34 ≤ (generate_vital_snapshot patient_id risk_level now d).temperature ∧
      (generate_vital_snapshot patient_id risk_level now d).temperature ≤ 42) ∧
    (60 ≤ (generate_vital_snapshot patient_id risk_level now d).blood_pressure ∧
      (generate_vital_snapshot patient_id risk_level now d).blood_pressure ≤ 200) ∧
    (8 ≤ (generate_vital_snapshot patient_id risk_level now d).respiratory_rate ∧
      (generate_vital_snapshot patient_id risk_level now d).respiratory_rate ≤ 45) := by
  unfold generate_vital_snapshot
  dsimp only
  refine ⟨clip_bounds _ _ _ (by norm_num), ?_, ?_, ?_, ?_⟩
  · exact clip_bounds _ _ _ (by norm_num)
  · have h := clip_bounds ((if risk_level = "normal" then
        (75 + 5 * d.z_hr, 97 + 1 * d.z_o2, 36.8 + 0.3 * d.z_temp,
          120 + 8 * d.z_bp, 16 + 2 * d.z_rr)
      else if risk_level = "warning" then
        (100 + 10 * d.z_hr, 93 + 2 * d.z_o2, 37.8 + 0.4 * d.z_temp,
          145 + 10 * d.z_bp, 22 + 3 * d.z_rr)
      else
        (130 + 15 * d.z_hr, 88 + 3 * d.z_o2, 39.0 + 0.6 * d.z_temp,
          170 + 15 * d.z_bp, 30 + 4 * d.z_rr)).2.2.1) 34.0 42.0 (by norm_num)
    constructor
    · calc (34 : ℚ) = 34.0 := by norm_num
        _ ≤ _ := h.1
    · calc _ ≤ (42.0 : ℚ) := h.2
        _ = 42 := by norm_num
  · exact clip_bounds _ _ _ (by norm_num)
  · exact clip_bounds _ _ _ (by norm_num)

/-- Claim C4: for arbitrary inputs and an arbitrary underlying model,
predict_risk returns a risk_score in [0, 1] and a status equal to
classify_risk of that clamped risk_score. -/
theorem C4_predict_clamp (model : ℚ → ℚ → ℚ → ℚ → ℚ → ℚ)
    (hr o2 t bp rr : ℚ) :
    0 ≤ (predict_risk model hr o2 t bp rr).risk_score ∧
    (predict_risk model hr o2 t bp rr).risk_score ≤ 1 ∧
    (predict_risk model hr o2 t bp rr).status =
      classify_risk (predict_risk model hr o2 t bp rr).risk_score := by
  unfold predict_risk
  dsimp only
  have h := clip_bounds (model hr o2 t bp rr) 0.0 1.0 (by norm_num)
  refine ⟨?_, ?_, rfl⟩
  · calc (0 : ℚ) = 0.0 := by norm_num
      _ ≤ _ := h.1
  · calc _ ≤ (1.0 : ℚ) := h.2
      _ = 1 := by norm_num

/-- Claim C10: any risk_level other than "normal" or "warning" falls into the
critical branch: with the same draws and clock, the snapshot equals the one
for risk_level = "critical"; the input is never rejected. -/
theorem C10_unknown_level_is_critical (patient_id : ℤ) (risk_level : String)
    (now : ℚ) (d : NormalDraws)
    (h1 : risk_level ≠ "normal") (h2 : risk_level ≠ "warning") :
    generate_vital_snapshot patient_id risk_level now d =
      generate_vital_snapshot patient_id "critical" now d := by
  unfold generate_vital_snapshot
  rw [if_neg h1, if_neg h2,
    if_neg (show ¬("critical" = "normal") by decide),
    if_neg (show ¬("critical" = "warning") by decide)]

/-- Witness for C10 at the misspelled level "CRITICAL!!". -/
theorem C10_witness :
    generate_vital_snapshot 7 "CRITICAL!!" 0 dZero =
      generate_vital_snapshot 7 "critical" 0 dZero :=
  C10_unknown_level_is_critical 7 "CRITICAL!!" 0 dZero (by decide) (by decide)

/-- Claim C5: generate_patient_dataset is deterministic in (n_patients, seed):
any two worlds running the same (algorithm-fixed) seeded PRNG family produce
identical datasets, whatever their ambient entropy streams and clocks. -/
theorem C5_dataset_deterministic (w1 w2 : World) (n_patients seed : ℕ)
    (h : w1.seededUniform = w2.seededUniform) :
    generate_patient_dataset w1 n_patients seed =
      generate_patient_dataset w2 n_patients seed := by
  unfold generate_patient_dataset
  rw [h]

/-- Witness for C5: two worlds differing in entropy and clock but agreeing on
the seeded PRNG yield the same 3-row dataset for seed 42. -/
theorem C5_witness :
    generate_patient_dataset ⟨fun _ => dZero, 0, fun _ _ => 0⟩ 3 42 =
      generate_patient_dataset ⟨fun _ => ⟨1, 2, 3, 4, 5⟩, 99, fun _ _ => 0⟩ 3 42 :=
  C5_dataset_deterministic _ _ 3 42 rfl

/-- Helper: the risk-score label always lies in [0, 1]. -/
theorem riskScore_mem (hr o2 t bp rr : ℚ) :
    0 ≤ riskScore hr o2 t bp rr ∧ riskScore hr o2 t bp rr ≤ 1 := by
  unfold riskScore
  have h := clip_bounds (rawRiskScore hr o2 t bp rr) 0.0 1.0 (by norm_num)
  constructor
  · calc (0 : ℚ) = 0.0 := by norm_num
      _ ≤ _ := h.1
  · calc _ ≤ (1.0 : ℚ) := h.2
      _ = 1 := by norm_num

/-- Claim C6: the dataset's columns are exactly heart_rate, oxygen_level,
temperature, blood_pressure, respiratory_rate, risk_score in that order, one
patient per row (n_patients rows), and every row's risk_score label equals
the Risk Scorer applied to that row's five vitals, hence lies in [0, 1]. -/
theorem C6_dataset_rows (w : World) (n_patients seed : ℕ) :
    dataset_columns = ["heart_rate", "oxygen_level", "temperature",
      "blood_pressure", "respiratory_rate", "risk_score"] ∧
    (generate_patient_dataset w n_patients seed).length = n_patients ∧
    ∀ r ∈ generate_patient_dataset w n_patients seed,
      r.risk_score = riskScore r.heart_rate r.oxygen_level r.temperature
        r.blood_pressure r.respiratory_rate ∧
      0 ≤ r.risk_score ∧ r.risk_score ≤ 1 := by
  refine ⟨rfl, by simp [generate_patient_dataset], ?_⟩
  intro r hr
  simp only [generate_patient_dataset, List.mem_map] at hr
  obtain ⟨i, -, rfl⟩ := hr
  exact ⟨rfl, riskScore_mem _ _ _ _ _⟩

/-- Witness for C6 at a concrete world with a constant-zero seeded PRNG,
one patient, seed 0: the single row's label is in [0, 1]. -/
theorem C6_witness :
    0 ≤ (PatientRecord.mk 50 80 35 80 10 (riskScore 50 80 35 80 10)).risk_score ∧
    (PatientRecord.mk 50 80 35 80 10 (riskScore 50 80 35 80 10)).risk_score ≤ 1 := by
  have h := (C6_dataset_rows ⟨fun _ => dZero, 0, fun _ _ => 0⟩ 1 0).2.2
    (PatientRecord.mk 50 80 35 80 10 (riskScore 50 80 35 80 10))
    (by
      simp only [generate_patient_dataset, List.range_succ, List.range_zero,
        List.nil_append, List.map_cons, List.map_nil, List.mem_singleton]
      norm_num)
  exact h.2

/-- Claim C9: classify_risk is monotone for the ordinal order
SAFE < WARNING < CRITICAL (measured by statusRank), is total on all of ℚ,
maps every negative score to SAFE and every score above 1 to CRITICAL. -/
theorem C9_classify_monotone :
    (∀ s1 s2 : ℚ, s1 ≤ s2 →
      statusRank (classify_risk s1) ≤ statusRank (classify_risk s2)) ∧
    (∀ s : ℚ, s < 0 → classify_risk s = "SAFE") ∧
    (∀ s : ℚ, 1 < s → classify_risk s = "CRITICAL") := by
  refine ⟨?_, ?_, ?_⟩
  · intro s1 s2 h
    unfold classify_risk
    split_ifs <;> first | decide | linarith
  · intro s h
    unfold classify_risk
    rw [if_pos (by linarith)]
  · intro s h
    unfold classify_risk
    rw [if_neg (not_lt.mpr (by linarith)), if_neg (not_lt.mpr (by linarith))]

/-- Witness for C9 at scores 0.2 ≤ 0.9, the negative score -3/4 and the
above-one score 7/4. -/
theorem C9_witness :
    statusRank (classify_risk 0.2) ≤ statusRank (classify_risk 0.9) ∧
    classify_risk (-(3/4)) = "SAFE" ∧ classify_risk (7/4) = "CRITICAL" :=
  ⟨C9_classify_monotone.1 0.2 0.9 (by norm_num),
    C9_classify_monotone.2.1 (-(3/4)) (by norm_num),
    C9_classify_monotone.2.2 (7/4) (by norm_num)⟩

/-- Counterexample to claim C8: with interval_seconds = 0 (and n = 2) all
timestamps coincide, so they are not strictly increasing; the claim's "every
interval" fails. -/
theorem C8_counterexample :
    ¬ List.Pairwise (· < ·)
      ((generate_time_series 2 0 "normal" 0 fun _ => dZero).map
        VitalSnapshot.timestamp) := by
  intro hp
  have hts : (generate_time_series 2 0 "normal" 0 fun _ => dZero).map
      VitalSnapshot.timestamp = [0, 0] := by
    simp [generate_time_series, List.range_succ]
  rw [hts] at hp
  rcases hp with - | ⟨h, -⟩
  exact absurd (h 0 (by simp)) (lt_irrefl 0)

/-- Claim C8 (amended): generate_time_series always returns exactly n_points
snapshots whose consecutive timestamps differ by exactly interval_seconds;
whenever interval_seconds is positive the timestamps are strictly
increasing (for interval_seconds ≤ 0 the spacing still holds but strict
increase fails). -/
theorem C8_time_series (n_points : ℕ) (interval_seconds : ℤ)
    (risk_level : String) (now : ℚ) (draws : ℕ → NormalDraws) :
    (generate_time_series n_points interval_seconds risk_level now draws).length
        = n_points ∧
    (∀ i : ℕ,
      ∀ h : i + 1 < ((generate_time_series n_points interval_seconds risk_level
          now draws).map VitalSnapshot.timestamp).length,
      ((generate_time_series n_points interval_seconds risk_level now
          draws).map VitalSnapshot.timestamp).get ⟨i + 1, h⟩ -
        ((generate_time_series n_points interval_seconds risk_level now
          draws).map VitalSnapshot.timestamp).get ⟨i, Nat.lt_of_succ_lt h⟩ =
        (interval_seconds : ℚ)) ∧
    (0 < interval_seconds →
      List.Pairwise (· < ·)
        ((generate_time_series n_points interval_seconds risk_level now
          draws).map VitalSnapshot.timestamp)) := by
  refine ⟨by simp [generate_time_series], ?_, ?_⟩
  · intro i h
    have hi : i + 1 < n_points := by
      simpa [generate_time_series] using h
    simp only [generate_time_series, List.get_eq_getElem, List.getElem_map,
      List.getElem_range]
    push_cast
    ring
  · intro hq
    unfold generate_time_series
    rw [List.map_map, List.pairwise_map]
    refine (List.pairwise_lt_range n_points).imp ?_
    intro a b hab
    simp only [Function.comp]
    have h1 : ((n_points : ℤ) - b) * interval_seconds <
        ((n_points : ℤ) - a) * interval_seconds := by
      apply mul_lt_mul_of_pos_right _ hq
      omega
    have h2 : ((((n_points : ℤ) - b) * interval_seconds : ℤ) : ℚ) <
        ((((n_points : ℤ) - a) * interval_seconds : ℤ) : ℚ) := by
      exact_mod_cast h1
    linarith

/-- Witness for C8 (amended) at n = 2, interval = 1: strictly increasing
timestamps. -/
theorem C8_witness :
    List.Pairwise (· < ·)
      ((generate_time_series 2 1 "normal" 0 fun _ => dZero).map
        VitalSnapshot.timestamp) :=
  (C8_time_series 2 1 "normal" 0 fun _ => dZero).2.2 (by norm_num)

end ICU
